import Mathlib

/-!
Verification of the resume-scoring subsystem of `backend/app/ats_service.py`
(the jobtrack repository).  The two public operations, `analyze_resume_ats`
and `generate_cover_letter`, are embedded shallowly: the Anthropic client is
modelled as a function from outbound requests to either an upstream error or
the raw generated text, and each operation additionally returns the list of
requests it issued so that call-count and request-shape properties can be
stated.  Python's `json.loads` is modelled by an executable JSON parser over
a `Json` inductive, matching the default `json.loads` behaviour: null,
booleans, integer literals, fraction/exponent literals, the `NaN`,
`Infinity` and `-Infinity` constants, strings with the escape sequences
including `\uXXXX` and surrogate pairs, rejection of raw control characters
inside string literals (`strict=True`), arrays, objects with Python's
last-wins duplicate-key dict semantics, insignificant whitespace and
whole-input consumption.  Two residues of floating point remain outside the
embedding: a fraction/exponent literal is kept as the exact decimal it
spells (in canonical form) rather than rounded to the nearest IEEE double
(so out-of-range literals do not overflow to infinity, and `NaN` is an
ordinary constructor with reflexive equality), and a lone surrogate escape,
which Python keeps as a lone surrogate code unit, is rejected because a
Lean `String` holds only Unicode scalar values.
-/

namespace ATS

/-- JSON values, as produced by the model of Python's `json.loads`.
Integer literals become `num`; fraction/exponent literals become `fnum m e`,
the exact decimal `m * 10 ^ e` in canonical form (`m` not divisible by 10,
and `0` is `fnum 0 0`), identifying exactly the literals that spell the
same decimal; the constants `NaN`/`Infinity`/`-Infinity` that `json.loads`
accepts by default are their own constructors.  Objects hold their
key/value pairs with Python's dict semantics: first-occurrence position,
last-occurrence value. -/
inductive Json where
  | null : Json
  | bool (b : Bool) : Json
  | num (n : Int) : Json
  | fnum (m : Int) (e : Int) : Json
  | nan : Json
  | infinity : Json
  | negInfinity : Json
  | str (s : String) : Json
  | arr (items : List Json) : Json
  | obj (fields : List (String × Json)) : Json

/-- JSON insignificant whitespace. -/
def isWs (c : Char) : Bool :=
  c = ' ' || c = '\t' || c = '\n' || c = '\r'

/-- Drop leading JSON whitespace. -/
def skipWs : List Char → List Char
  | [] => []
  | c :: cs => if isWs c then skipWs cs else c :: cs

/-- Value of one hexadecimal digit. -/
def hexVal (c : Char) : Option Nat :=
  if '0' ≤ c ∧ c ≤ '9' then some (c.toNat - 48)
  else if 'a' ≤ c ∧ c ≤ 'f' then some (c.toNat - 87)
  else if 'A' ≤ c ∧ c ≤ 'F' then some (c.toNat - 55)
  else none

/-- Value of the four hexadecimal digits of a `\uXXXX` escape. -/
def hex4 (a b c d : Char) : Option Nat :=
  match hexVal a, hexVal b, hexVal c, hexVal d with
  | some x, some y, some z, some w => some (((x * 16 + y) * 16 + z) * 16 + w)
  | _, _, _, _ => none

/-- Parse the body of a JSON string literal (the opening quote already
consumed), returning the decoded characters and the remaining input.  As in
`json.loads` with its default `strict=True`, a raw control character
(code point below 32) is rejected; the escapes are the eight JSON
single-character escapes and `\uXXXX`, with a high-surrogate escape joined
to an immediately following low-surrogate escape exactly as Python joins
them.  A lone surrogate escape is rejected (see the header: Lean strings
cannot hold one). -/
def parseStringBody : List Char → Option (List Char × List Char)
  | [] => none
  | c :: cs =>
    if c = '"' then some ([], cs)
    else if c = '\\' then
      match cs with
      | [] => none
      | 'u' :: h1 :: h2 :: h3 :: h4 :: cs3 =>
        (match hex4 h1 h2 h3 h4 with
         | none => none
         | some n =>
           if n < 55296 ∨ 57343 < n then
             match parseStringBody cs3 with
             | some (body, rest) => some (Char.ofNat n :: body, rest)
             | none => none
           else if n ≤ 56319 then
             match cs3 with
             | '\\' :: 'u' :: g1 :: g2 :: g3 :: g4 :: cs4 =>
               (match hex4 g1 g2 g3 g4 with
                | none => none
                | some m =>
                  if 56320 ≤ m ∧ m ≤ 57343 then
                    match parseStringBody cs4 with
                    | some (body, rest) =>
                      some (Char.ofNat (65536 + (n - 55296) * 1024 + (m - 56320)) :: body,
                            rest)
                    | none => none
                  else none)
             | _ => none
           else none)
      | e :: cs2 =>
        let dec : Option Char :=
          if e = '"' then some '"'
          else if e = '\\' then some '\\'
          else if e = '/' then some '/'
          else if e = 'n' then some '\n'
          else if e = 't' then some '\t'
          else if e = 'r' then some '\r'
          else if e = 'b' then some (Char.ofNat 8)
          else if e = 'f' then some (Char.ofNat 12)
          else none
        match dec with
        | none => none
        | some ch =>
          match parseStringBody cs2 with
          | some (body, rest) => some (ch :: body, rest)
          | none => none
    else if c.toNat < 32 then none
    else
      match parseStringBody cs with
      | some (body, rest) => some (c :: body, rest)
      | none => none

/-- Take the maximal run of leading decimal digits. -/
def takeDigits : List Char → List Char × List Char
  | [] => ([], [])
  | c :: cs =>
    if c.isDigit then
      let p := takeDigits cs
      (c :: p.1, p.2)
    else ([], c :: cs)

/-- Value of a run of decimal digits. -/
def digitsToNat (ds : List Char) : Nat :=
  ds.foldl (fun acc c => acc * 10 + (c.toNat - 48)) 0

/-- Parse a JSON natural-number literal (no leading zeros, per RFC 8259 and
Python's `json`). -/
def parseNatLit (cs : List Char) : Option (Nat × List Char) :=
  let p := takeDigits cs
  match p.1 with
  | [] => none
  | [d] => some (d.toNat - 48, p.2)
  | d :: _ :: _ => if d = '0' then none else some (digitsToNat p.1, p.2)

/-- Parse the optional fraction part of a number: `([], rest)` when no `.`
is present, the fraction digits when it is, `none` when a `.` is not
followed by a digit. -/
def parseFrac : List Char → Option (List Char × List Char)
  | '.' :: cs =>
    let p := takeDigits cs
    match p.1 with
    | [] => none
    | _ => some (p.1, p.2)
  | cs => some ([], cs)

/-- Parse the optional exponent part of a number: whether an exponent was
present, its signed value (0 when absent), and the remaining input; `none`
when an `e`/`E` is not followed by digits. -/
def parseExp : List Char → Option (Bool × Int × List Char)
  | c :: cs =>
    if c = 'e' || c = 'E' then
      match cs with
      | '+' :: r =>
        (match takeDigits r with
         | ([], _) => none
         | (ds, rest) => some (true, (digitsToNat ds : Int), rest))
      | '-' :: r =>
        (match takeDigits r with
         | ([], _) => none
         | (ds, rest) => some (true, -(digitsToNat ds : Int), rest))
      | r =>
        (match takeDigits r with
         | ([], _) => none
         | (ds, rest) => some (true, (digitsToNat ds : Int), rest))
    else some (false, 0, c :: cs)
  | [] => some (false, 0, [])

/-- Strip factors of 10 from the mantissa into the exponent; the fuel is an
upper bound on the number of trailing zeros. -/
def normFnumAux : Nat → Int → Int → Json
  | 0, m, e => Json.fnum m e
  | fuel + 1, m, e =>
    if m % 10 = 0 then normFnumAux fuel (m / 10) (e + 1)
    else Json.fnum m e

/-- The canonical form of the exact decimal `m * 10 ^ e`: mantissa not
divisible by 10, and zero is `fnum 0 0`, so literals spelling the same
decimal value parse to equal `Json` values. -/
def normFnum (m e : Int) : Json :=
  if m = 0 then Json.fnum 0 0 else normFnumAux m.natAbs m e

/-- Parse a JSON number literal: optional minus, integer part with no
leading zeros, optional fraction, optional exponent.  A plain integer
literal becomes `Json.num` (Python's `int`); a literal with a fraction or
exponent becomes the canonical exact decimal `Json.fnum` (which Python
rounds on to the nearest IEEE double — see the header). -/
def parseNumber (cs0 : List Char) : Option (Json × List Char) :=
  let sp : Bool × List Char :=
    match cs0 with
    | '-' :: rest => (true, rest)
    | _ => (false, cs0)
  match parseNatLit sp.2 with
  | none => none
  | some (ip, cs2) =>
    match parseFrac cs2 with
    | none => none
    | some (frac, cs3) =>
      match parseExp cs3 with
      | none => none
      | some (hasExp, e, cs4) =>
        if frac.isEmpty && !hasExp then
          some (Json.num (if sp.1 then -(ip : Int) else (ip : Int)), cs4)
        else
          let mAbs : Nat := ip * 10 ^ frac.length + digitsToNat frac
          some (normFnum (if sp.1 then -(mAbs : Int) else (mAbs : Int))
                  (e - (frac.length : Int)), cs4)

/-- Insert a parsed object member with Python dict semantics: an existing
key keeps its position and takes the new value, a new key is appended. -/
def insertKey : List (String × Json) → String → Json → List (String × Json)
  | [], k, v => [(k, v)]
  | (k', v') :: rest, k, v =>
    if k' = k then (k', v) :: rest else (k', v') :: insertKey rest k v

/-- Fold the members of an object literal into a Python dict: on duplicate
keys the last value wins at the first occurrence's position, as in
`json.loads` (an object literal is built as a `dict`). -/
def buildDict (pairs : List (String × Json)) : List (String × Json) :=
  pairs.foldl (fun acc p => insertKey acc p.1 p.2) []

mutual

/-- Parse one JSON value, fuel-indexed; model of the recursive descent inside
Python's `json.loads`. -/
def parseValue : Nat → List Char → Option (Json × List Char)
  | 0, _ => none
  | fuel + 1, cs =>
    match skipWs cs with
    | [] => none
    | c :: rest =>
      if c = 'n' then
        match rest with
        | 'u' :: 'l' :: 'l' :: r => some (Json.null, r)
        | _ => none
      else if c = 't' then
        match rest with
        | 'r' :: 'u' :: 'e' :: r => some (Json.bool true, r)
        | _ => none
      else if c = 'f' then
        match rest with
        | 'a' :: 'l' :: 's' :: 'e' :: r => some (Json.bool false, r)
        | _ => none
      else if c = '"' then
        match parseStringBody rest with
        | some (body, r) => some (Json.str (String.mk body), r)
        | none => none
      else if c = '[' then
        match skipWs rest with
        | ']' :: r => some (Json.arr [], r)
        | cs2 =>
          match parseItems fuel cs2 with
          | some (items, r) => some (Json.arr items, r)
          | none => none
      else if c = '\x7b' then
        match skipWs rest with
        | '\x7d' :: r => some (Json.obj [], r)
        | cs2 =>
          match parseMembers fuel cs2 with
          | some (mems, r) => some (Json.obj (buildDict mems), r)
          | none => none
      else if c = 'N' then
        match rest with
        | 'a' :: 'N' :: r => some (Json.nan, r)
        | _ => none
      else if c = 'I' then
        match rest with
        | 'n' :: 'f' :: 'i' :: 'n' :: 'i' :: 't' :: 'y' :: r => some (Json.infinity, r)
        | _ => none
      else if c = '-' then
        match rest with
        | 'I' :: 'n' :: 'f' :: 'i' :: 'n' :: 'i' :: 't' :: 'y' :: r =>
          some (Json.negInfinity, r)
        | _ =>
          match parseNumber (c :: rest) with
          | some (j, r) => some (j, r)
          | none => none
      else
        match parseNumber (c :: rest) with
        | some (j, r) => some (j, r)
        | none => none

/-- Parse the comma-separated items of a non-empty JSON array, consuming the
closing bracket. -/
def parseItems : Nat → List Char → Option (List Json × List Char)
  | 0, _ => none
  | fuel + 1, cs =>
    match parseValue fuel cs with
    | none => none
    | some (v, rest) =>
      match skipWs rest with
      | ',' :: r =>
        match parseItems fuel r with
        | some (vs, r2) => some (v :: vs, r2)
        | none => none
      | ']' :: r => some ([v], r)
      | _ => none

/-- Parse the comma-separated members of a non-empty JSON object, consuming
the closing brace. -/
def parseMembers : Nat → List Char → Option (List (String × Json) × List Char)
  | 0, _ => none
  | fuel + 1, cs =>
    match skipWs cs with
    | '"' :: rest =>
      match parseStringBody rest with
      | none => none
      | some (keyChars, r1) =>
        match skipWs r1 with
        | ':' :: r2 =>
          match parseValue fuel r2 with
          | none => none
          | some (v, r3) =>
            match skipWs r3 with
            | ',' :: r4 =>
              match parseMembers fuel r4 with
              | some (ms, r5) => some ((String.mk keyChars, v) :: ms, r5)
              | none => none
            | '\x7d' :: r4 => some ([(String.mk keyChars, v)], r4)
            | _ => none
        | _ => none
    | _ => none

end

/-- Model of Python's `json.loads` restricted to the success/failure shape
the service observes: `some v` when the whole input is one JSON value
(with optional surrounding whitespace), `none` when `json.loads` would raise
`json.JSONDecodeError`. -/
def parseJson (s : String) : Option Json :=
  match parseValue (s.length + 1) s.data with
  | some (v, rest) => if skipWs rest = [] then some v else none
  | none => none

/-- Upstream failures of the Generation Client (the `anthropic` transport),
as classified by the spec: network, authentication, rate-limit or backend
errors raised by the `client.messages.create` call. -/
inductive GenError where
  | network (msg : String) : GenError
  | auth (msg : String) : GenError
  | rateLimit (msg : String) : GenError
  | backend (msg : String) : GenError

/-- One chat message of an outbound request, mirroring the
`\x7b"role": ..., "content": ...\x7d` dictionaries passed to
`client.messages.create`. -/
structure ChatMessage where
  role : String
  content : String

/-- The outbound request handed to `client.messages.create`: model
identifier, output-token ceiling, and the message list. -/
structure Request where
  model : String
  max_tokens : Nat
  messages : List ChatMessage

/-- The Generation Client: a request either raises an upstream error or
yields the raw generated text (`message.content[0].text`). -/
def GenClient : Type := Request → Except GenError String

/-- The model identifier both operations pass to `client.messages.create`. -/
def modelName : String := "claude-sonnet-4-20250514"

/-- Scoring prompt, text before the interpolated `resume_text`. -/
def scorePromptHead : String :=
  "You are an expert ATS (Applicant Tracking System) analyzer and career coach.\n\nAnalyze this resume against the job description and provide:\n1. An ATS compatibility score from 0-100\n2. Keywords from the job description that are MISSING from the resume\n3. Specific suggestions to improve the resume for this role\n4. A brief summary of the analysis\n\nRESUME:\n"

/-- Scoring prompt, text between `resume_text` and `job_description`. -/
def scorePromptMid : String := "\n\nJOB DESCRIPTION:\n"

/-- Scoring prompt, text after the interpolated `job_description` (the `\x7b\x7b`
and `\x7d\x7d` of the Python f-string are single literal braces). -/
def scorePromptTail : String :=
  "\n\nRespond in this exact JSON format (no markdown, just pure JSON):\n\x7b\n    \"score\": <number 0-100>,\n    \"missing_keywords\": [\"keyword1\", \"keyword2\", ...],\n    \"suggestions\": [\"suggestion1\", \"suggestion2\", ...],\n    \"summary\": \"Brief 2-3 sentence summary of the analysis\"\n\x7d\n"

/-- The scoring prompt built by `analyze_resume_ats`: the f-string template
with `resume_text` and `job_description` interpolated verbatim. -/
def buildScorePrompt (resume_text : String) (job_description : String) : String :=
  scorePromptHead ++ resume_text ++ scorePromptMid ++ job_description ++ scorePromptTail

/-- The single request `analyze_resume_ats` sends: fixed model, fixed 1024
output-token ceiling, one user-role message carrying the scoring prompt. -/
def scoreRequest (resume_text : String) (job_description : String) : Request :=
  { model := modelName
    max_tokens := 1024
    messages := [{ role := "user", content := buildScorePrompt resume_text job_description }] }

/-- The default structure `analyze_resume_ats` substitutes when
`json.loads` raises `JSONDecodeError`, with the raw response text kept
verbatim in `summary`. -/
def sentinelReport (response_text : String) : Json :=
  Json.obj
    [("score", Json.num 0),
     ("missing_keywords", Json.arr []),
     ("suggestions", Json.arr [Json.str "Could not analyze - please try again"]),
     ("summary", Json.str response_text)]

/-- Python's `json.loads` with its exception made explicit: `Except.error`
models the raised `json.JSONDecodeError`. -/
def jsonLoads (s : String) : Except String Json :=
  match parseJson s with
  | some v => Except.ok v
  | none => Except.error "JSONDecodeError"

/-- The `try/except json.JSONDecodeError` block of `analyze_resume_ats`,
with the caught exception still visible in the result type: the handler
returns the sentinel instead of re-raising. -/
def interpretE (response_text : String) : Except String Json :=
  match jsonLoads response_text with
  | Except.ok result => Except.ok result
  | Except.error _ => Except.ok (sentinelReport response_text)

/-- The response-interpretation step of `analyze_resume_ats` as the total
function it is: the parsed JSON value on success, the sentinel on parse
failure. -/
def interpretResponse (response_text : String) : Json :=
  match parseJson response_text with
  | some result => result
  | none => sentinelReport response_text

/-- `analyze_resume_ats(resume_text, job_description)`: build the scoring
prompt, call the Generation Client once, interpret the response.  An
upstream error is not caught; the returned list records every request
issued to the client. -/
def analyze_resume_ats (gen : GenClient) (resume_text : String)
    (job_description : String) : Except GenError Json × List Request :=
  match gen (scoreRequest resume_text job_description) with
  | Except.error e => (Except.error e, [scoreRequest resume_text job_description])
  | Except.ok response_text =>
    (Except.ok (interpretResponse response_text),
     [scoreRequest resume_text job_description])

/-- Cover-letter prompt, text before the interpolated `company_name`. -/
def coverPromptHead : String :=
  "You are an expert career coach and professional writer.\n\nWrite a compelling cover letter for this candidate applying to "

/-- Cover-letter prompt, text between `company_name` and `resume_text`. -/
def coverPromptA : String := ".\n\nRESUME:\n"

/-- Cover-letter prompt, text between `resume_text` and `job_description`. -/
def coverPromptB : String := "\n\nJOB DESCRIPTION:\n"

/-- Cover-letter prompt, text between `job_description` and `tone`. -/
def coverPromptC : String := "\n\nINSTRUCTIONS:\n- Tone: "

/-- Cover-letter prompt, text after the interpolated `tone`. -/
def coverPromptTail : String :=
  "\n- Length: 3-4 paragraphs\n- Highlight relevant experience from the resume\n- Show enthusiasm for the specific role and company\n- Include a strong opening and call to action\n- Do NOT use placeholder text like [Your Name] - write it as a complete letter\n\nWrite the cover letter now:"

/-- The cover-letter prompt built by `generate_cover_letter`: the f-string
template with company name, resume, job description and tone interpolated
verbatim. -/
def buildCoverPrompt (resume_text : String) (job_description : String)
    (company_name : String) (tone : String) : String :=
  coverPromptHead ++ company_name ++ coverPromptA ++ resume_text ++ coverPromptB
    ++ job_description ++ coverPromptC ++ tone ++ coverPromptTail

/-- The single request `generate_cover_letter` sends: fixed model, fixed
1500 output-token ceiling, one user-role message carrying the letter
prompt. -/
def coverRequest (resume_text : String) (job_description : String)
    (company_name : String) (tone : String) : Request :=
  { model := modelName
    max_tokens := 1500
    messages := [{ role := "user",
                   content := buildCoverPrompt resume_text job_description company_name tone }] }

/-- `generate_cover_letter(resume_text, job_description, company_name, tone)`:
build the letter prompt, call the Generation Client once, return the raw
text unmodified.  The returned list records every request issued. -/
def generate_cover_letter (gen : GenClient) (resume_text : String)
    (job_description : String) (company_name : String) (tone : String) :
    Except GenError String × List Request :=
  match gen (coverRequest resume_text job_description company_name tone) with
  | Except.error e =>
    (Except.error e, [coverRequest resume_text job_description company_name tone])
  | Except.ok text =>
    (Except.ok text, [coverRequest resume_text job_description company_name tone])

/-- `generate_cover_letter` called without the `tone` argument: Python
fills in the declared default `"professional"`. -/
def generate_cover_letter_default (gen : GenClient) (resume_text : String)
    (job_description : String) (company_name : String) :
    Except GenError String × List Request :=
  generate_cover_letter gen resume_text job_description company_name "professional"

/-- `true` when the JSON value is an object carrying all four ScoreReport
keys `score`, `missing_keywords`, `suggestions`, `summary`. -/
def hasKey (k : String) : Json → Bool
  | Json.obj fields => fields.any (fun p => p.1 = k)
  | _ => false

/-- A fully populated ScoreReport in the sense of the spec's invariant:
an object with all four fields present. -/
def fullyPopulated (j : Json) : Bool :=
  hasKey "score" j && hasKey "missing_keywords" j
    && hasKey "suggestions" j && hasKey "summary" j

/-- `needle` occurs as a literal contiguous substring of `haystack`. -/
def OccursIn (needle haystack : String) : Prop :=
  ∃ a b : String, haystack = a ++ needle ++ b

theorem string_append_assoc (a b c : String) : a ++ b ++ c = a ++ (b ++ c) := by
  apply String.ext
  simp [String.data_append]

theorem interpretResponse_getD (s : String) :
    interpretResponse s = (parseJson s).getD (sentinelReport s) := by
  unfold interpretResponse
  cases parseJson s <;> rfl

theorem analyze_fst_ok (gen : GenClient) (r jd s : String)
    (h : gen (scoreRequest r jd) = Except.ok s) :
    (analyze_resume_ats gen r jd).1 = Except.ok (interpretResponse s) := by
  unfold analyze_resume_ats
  rw [h]

theorem analyze_fst_error (gen : GenClient) (r jd : String) (e : GenError)
    (h : gen (scoreRequest r jd) = Except.error e) :
    (analyze_resume_ats gen r jd).1 = Except.error e := by
  unfold analyze_resume_ats
  rw [h]

theorem analyze_snd (gen : GenClient) (r jd : String) :
    (analyze_resume_ats gen r jd).2 = [scoreRequest r jd] := by
  unfold analyze_resume_ats
  cases gen (scoreRequest r jd) <;> rfl

theorem cover_fst_ok (gen : GenClient) (r jd c t s : String)
    (h : gen (coverRequest r jd c t) = Except.ok s) :
    (generate_cover_letter gen r jd c t).1 = Except.ok s := by
  unfold generate_cover_letter
  rw [h]

theorem cover_snd (gen : GenClient) (r jd c t : String) :
    (generate_cover_letter gen r jd c t).2 = [coverRequest r jd c t] := by
  unfold generate_cover_letter
  cases gen (coverRequest r jd c t) <;> rfl

/-- Claim C1, counterexample: a generator response of `"\x7b\x7d"` (the empty
JSON object) parses successfully, so `analyze_resume_ats` returns the empty
object verbatim — a ScoreReport with none of the four fields present.  The
success path performs no key check, so the result is not always fully
populated. -/
theorem scoreReport_not_always_fully_populated :
    (analyze_resume_ats (fun _ => Except.ok "\x7b\x7d") "r" "jd").1
        = Except.ok (Json.obj [])
      ∧ fullyPopulated (Json.obj []) = false := by
  constructor
  · rfl
  · rfl

/-- Claim C1, amended: when the generator call succeeds with raw text `s`,
`analyze_resume_ats` returns the parsed JSON value verbatim when `s` parses
(with no shape or key check, so the result need not have the four fields),
and only on parse failure substitutes the sentinel, which is fully
populated. -/
theorem scoreReport_population_by_path (gen : GenClient) (r jd s : String)
    (hgen : gen (scoreRequest r jd) = Except.ok s) :
    (analyze_resume_ats gen r jd).1
        = Except.ok ((parseJson s).getD (sentinelReport s))
      ∧ (parseJson s = none →
          fullyPopulated ((parseJson s).getD (sentinelReport s)) = true) := by
  constructor
  · rw [analyze_fst_ok gen r jd s hgen, interpretResponse_getD]
  · intro hnone
    rw [hnone]
    rfl

theorem scoreReport_population_by_path_witness :
    (analyze_resume_ats (fun _ => Except.ok "nope") "r" "jd").1
        = Except.ok ((parseJson "nope").getD (sentinelReport "nope"))
      ∧ (parseJson "nope" = none →
          fullyPopulated ((parseJson "nope").getD (sentinelReport "nope")) = true) :=
  scoreReport_population_by_path (fun _ => Except.ok "nope") "r" "jd" "nope" rfl

/-- Claim C2: for every string `s` that does not parse as JSON, the
interpretation step returns exactly the sentinel ScoreReport — score 0,
empty `missing_keywords`, the single suggestion
"Could not analyze - please try again", and `s` itself, verbatim, as
`summary`. -/
theorem interpret_parse_failure_sentinel (s : String) (h : parseJson s = none) :
    interpretResponse s =
      Json.obj
        [("score", Json.num 0),
         ("missing_keywords", Json.arr []),
         ("suggestions", Json.arr [Json.str "Could not analyze - please try again"]),
         ("summary", Json.str s)] := by
  unfold interpretResponse
  rw [h]
  rfl

theorem interpret_parse_failure_sentinel_witness :
    interpretResponse "Sorry, I cannot help." =
      Json.obj
        [("score", Json.num 0),
         ("missing_keywords", Json.arr []),
         ("suggestions", Json.arr [Json.str "Could not analyze - please try again"]),
         ("summary", Json.str "Sorry, I cannot help.")] :=
  interpret_parse_failure_sentinel "Sorry, I cannot help." rfl

/-- Claim C3: the interpretation step is total.  With the `json.loads`
exception made explicit, the `try/except` block never lets an error escape:
for every input string it returns `Except.ok` of the same value the total
interpretation function produces. -/
theorem interpret_total (s : String) :
    interpretE s = Except.ok (interpretResponse s) := by
  unfold interpretE jsonLoads interpretResponse
  cases parseJson s <;> rfl

/-- Claim C4: when the raw text parses as a JSON object carrying all four
required keys, the interpretation step returns that object exactly — every
field equals the parsed value, with no type validation, coercion or
clamping. -/
theorem interpret_wellformed_passthrough (s : String)
    (fields : List (String × Json))
    (hparse : parseJson s = some (Json.obj fields))
    (_hkeys : fullyPopulated (Json.obj fields) = true) :
    interpretResponse s = Json.obj fields := by
  unfold interpretResponse
  rw [hparse]


theorem interpret_wellformed_passthrough_witness :
    interpretResponse "\x7b\"score\": 72.5, \"missing_keywords\": [\"AWS\"], \"suggestions\": [\"Add AWS experience\"], \"summary\": \"Good match\"\x7d"
      = Json.obj
          [("score", Json.fnum 725 (-1)),
           ("missing_keywords", Json.arr [Json.str "AWS"]),
           ("suggestions", Json.arr [Json.str "Add AWS experience"]),
           ("summary", Json.str "Good match")] :=
  interpret_wellformed_passthrough
    "\x7b\"score\": 72.5, \"missing_keywords\": [\"AWS\"], \"suggestions\": [\"Add AWS experience\"], \"summary\": \"Good match\"\x7d"
    [("score", Json.fnum 725 (-1)),
     ("missing_keywords", Json.arr [Json.str "AWS"]),
     ("suggestions", Json.arr [Json.str "Add AWS experience"]),
     ("summary", Json.str "Good match")]
    rfl rfl

/-- Claim C5: when the Generation Client raises an upstream error,
`analyze_resume_ats` propagates that exact error to its caller — it is not
caught, never turned into the sentinel, and the request trace shows the
single original call, so nothing is retried. -/
theorem analyze_propagates_gen_error (gen : GenClient) (r jd : String)
    (e : GenError) (h : gen (scoreRequest r jd) = Except.error e) :
    (analyze_resume_ats gen r jd).1 = Except.error e
      ∧ (analyze_resume_ats gen r jd).2 = [scoreRequest r jd] := by
  constructor
  · exact analyze_fst_error gen r jd e h
  · exact analyze_snd gen r jd

theorem analyze_propagates_gen_error_witness :
    (analyze_resume_ats (fun _ => Except.error (GenError.network "connection reset")) "r" "jd").1
        = Except.error (GenError.network "connection reset")
      ∧ (analyze_resume_ats (fun _ => Except.error (GenError.network "connection reset")) "r" "jd").2
        = [scoreRequest "r" "jd"] :=
  analyze_propagates_gen_error
    (fun _ => Except.error (GenError.network "connection reset")) "r" "jd"
    (GenError.network "connection reset") rfl

/-- Claim C6: whenever the raw generator text parses as JSON,
`analyze_resume_ats` returns the parsed value exactly as produced, with no
top-level shape or key check — non-objects, objects missing keys, and
objects with extra keys are all passed through and never replaced by the
sentinel. -/
theorem analyze_returns_parsed_json_verbatim (gen : GenClient)
    (r jd s : String) (v : Json)
    (hgen : gen (scoreRequest r jd) = Except.ok s)
    (hparse : parseJson s = some v) :
    (analyze_resume_ats gen r jd).1 = Except.ok v := by
  rw [analyze_fst_ok gen r jd s hgen, interpretResponse_getD, hparse]
  rfl

theorem analyze_returns_parsed_json_verbatim_witness :
    (analyze_resume_ats (fun _ => Except.ok "3.14") "r" "jd").1
      = Except.ok (Json.fnum 314 (-2)) :=
  analyze_returns_parsed_json_verbatim (fun _ => Except.ok "3.14") "r" "jd"
    "3.14" (Json.fnum 314 (-2)) rfl rfl

/-- Claim C7: building the scoring prompt is a pure function of the
(resume text, job description) pair — in particular it is deterministic:
identical inputs yield byte-identical prompt strings. -/
theorem buildScorePrompt_deterministic (r1 j1 r2 j2 : String)
    (hr : r1 = r2) (hj : j1 = j2) :
    buildScorePrompt r1 j1 = buildScorePrompt r2 j2 := by
  rw [hr, hj]

theorem buildScorePrompt_deterministic_witness :
    buildScorePrompt "resume" "job" = buildScorePrompt "resume" "job" :=
  buildScorePrompt_deterministic "resume" "job" "resume" "job" rfl rfl

/-- Claim C8: each public operation issues exactly one request to the
Generation Client, whatever the inputs and whatever the client returns, and
the output-token ceiling of that request is the fixed constant 1024 on the
scoring path and 1500 on the letter path, independent of every
caller-supplied argument. -/
theorem client_called_once_fixed_ceilings (gen : GenClient)
    (r jd c t : String) :
    (analyze_resume_ats gen r jd).2 = [scoreRequest r jd]
      ∧ (scoreRequest r jd).max_tokens = 1024
      ∧ (generate_cover_letter gen r jd c t).2 = [coverRequest r jd c t]
      ∧ (coverRequest r jd c t).max_tokens = 1500 :=
  ⟨analyze_snd gen r jd, rfl, cover_snd gen r jd c t, rfl⟩

/-- Claim C9: the cover-letter prompt contains the caller's company name
and tone as literal substrings, interpolated verbatim with no enum
validation on the tone; the operation returns the generator's raw text
unmodified; and omitting the tone means calling with `"professional"`. -/
theorem coverLetter_interpolation_and_raw_text (gen : GenClient)
    (r jd c t s : String) (hgen : gen (coverRequest r jd c t) = Except.ok s) :
    OccursIn c (buildCoverPrompt r jd c t)
      ∧ OccursIn t (buildCoverPrompt r jd c t)
      ∧ (generate_cover_letter gen r jd c t).1 = Except.ok s
      ∧ generate_cover_letter_default gen r jd c
          = generate_cover_letter gen r jd c "professional" := by
  refine ⟨?_, ?_, ?_, rfl⟩
  · refine ⟨coverPromptHead,
      coverPromptA ++ r ++ coverPromptB ++ jd ++ coverPromptC ++ t ++ coverPromptTail, ?_⟩
    unfold buildCoverPrompt
    simp only [string_append_assoc]
  · refine ⟨coverPromptHead ++ c ++ coverPromptA ++ r ++ coverPromptB ++ jd ++ coverPromptC,
      coverPromptTail, ?_⟩
    unfold buildCoverPrompt
    simp only [string_append_assoc]
  · exact cover_fst_ok gen r jd c t s hgen

theorem coverLetter_interpolation_and_raw_text_witness :
    OccursIn "Acme Corp" (buildCoverPrompt "resume" "job" "Acme Corp" "enthusiastic")
      ∧ OccursIn "enthusiastic" (buildCoverPrompt "resume" "job" "Acme Corp" "enthusiastic")
      ∧ (generate_cover_letter (fun _ => Except.ok "Dear Hiring Manager, ...")
          "resume" "job" "Acme Corp" "enthusiastic").1
          = Except.ok "Dear Hiring Manager, ..."
      ∧ generate_cover_letter_default (fun _ => Except.ok "Dear Hiring Manager, ...")
          "resume" "job" "Acme Corp"
          = generate_cover_letter (fun _ => Except.ok "Dear Hiring Manager, ...")
              "resume" "job" "Acme Corp" "professional" :=
  coverLetter_interpolation_and_raw_text
    (fun _ => Except.ok "Dear Hiring Manager, ...")
    "resume" "job" "Acme Corp" "enthusiastic" "Dear Hiring Manager, ..." rfl

/-- Claim C10: for all inputs, both operations send the one outbound
request in the same fixed shape — the constant model identifier
"claude-sonnet-4-20250514" and exactly one user-role message whose content
is the built prompt; neither the model nor the message structure depends on
any caller-supplied argument. -/
theorem outbound_request_shape (gen : GenClient) (r jd c t : String) :
    (analyze_resume_ats gen r jd).2 =
        [{ model := "claude-sonnet-4-20250514"
           max_tokens := 1024
           messages := [{ role := "user", content := buildScorePrompt r jd }] }]
      ∧ (generate_cover_letter gen r jd c t).2 =
        [{ model := "claude-sonnet-4-20250514"
           max_tokens := 1500
           messages := [{ role := "user", content := buildCoverPrompt r jd c t }] }] :=
  ⟨analyze_snd gen r jd, cover_snd gen r jd c t⟩

end ATS
